import Mathlib

/-!
Shallow embedding of the pikzie test-execution engine
(src/lib/pikzie/core.py): the `TestResult` aggregator with listener
dispatch, the `TestCase.run` lifecycle driver, the `TestSuite` loop and
the `TestLoader` module-resolution loop.

Modelling conventions:
* User-supplied code (a test's `setup`, body and `teardown`) is opaque to
  the engine; only how it terminates matters.  Each phase is therefore
  embedded as an abstract outcome: normal return, raising
  `AssertionFailure`, raising `KeyboardInterrupt` (the cooperative
  cancellation signal) or raising any other exception.
* A `Fault` stands for the `Failure` / `Error` record objects built by
  `TestCase._add_failure` / `TestCase._add_error`.  Their classes live in
  `pikzie/faults.py`, which only defines plain record holders; here they
  are reduced to their tag, the test they belong to and (for an Error)
  the phase whose exception produced them, standing in for the captured
  traceback detail.  Wall-clock bookkeeping (`_start_at`, `_stop_at`,
  `elapsed`) is real time and is not modelled.
* The `TestResult` carries a ghost event `log`.  `hook_call` events are
  the listener dispatches performed by `TestResult._notify`;
  `start_test` / `stop_test` / `add_success` marker events record that
  the corresponding `TestResult` method was invoked (they have no
  observable counterpart beyond the time bookkeeping, and exist so that
  "this method was called" is statable).
* In `core.py` the attribute `TestResult.interrupted` is a `bool` set in
  `__init__`; the method that sets it is `TestResult.interrupt`.  The
  calls `result.interrupted()` inside `TestCase.run` (lines 146, 158,
  166) therefore call a `bool` object and raise `TypeError` at runtime.
  This engine-level exception is embedded as `Escape.type_error`; it is
  not catchable by any handler of `TestCase.run` (it is raised inside
  the `except` handlers themselves) and so propagates out of the run.
-/

namespace Pikzie

/-- How a user-supplied phase (setup / test body / teardown) terminates. -/
inductive UserOutcome
  | ok
  | assertion_failure
  | keyboard_interrupt
  | other_error
deriving DecidableEq

/-- Which phase of the lifecycle an exception came from. -/
inductive Phase
  | setup
  | body
  | teardown
deriving DecidableEq

/-- A fault record: `Failure` (from `AssertionFailure` in the body, built by
`_add_failure`) or `Error` (any other exception, built by `_add_error`),
tagged with the test and the phase that produced it. -/
inductive Fault
  | failure (test : Nat)
  | error (test : Nat) (phase : Phase)
deriving DecidableEq

def Fault.isFailure : Fault → Bool
  | .failure _ => true
  | .error _ _ => false

def Fault.isError : Fault → Bool
  | .failure _ => false
  | .error _ _ => true

/-- An argument passed to a listener callback (after the aggregator itself,
which `_notify` always passes first). -/
inductive Arg
  | test (id : Nat)
  | fault (f : Fault)
deriving DecidableEq

/-- A registered listener, identified by the set of `on_<event>` callback
names it implements (the `hasattr` check in `TestResult._notify`). -/
structure Listener where
  hooks : List String
deriving DecidableEq

/-- Ghost event log entries (see the module docstring). -/
inductive REvent
  | start_test (test : Nat)
  | stop_test (test : Nat)
  | add_success (test : Nat)
  | hook_call (listner : Nat) (callback : String) (args : List Arg)
deriving DecidableEq

/-- State of a `TestResult` (`core.py` lines 326-409), minus the wall-clock
fields, plus the ghost `log`. -/
structure TestResult where
  n_assertions : Nat
  n_tests : Nat
  faults : List Fault
  listners : List Listener
  interrupted : Bool
  log : List REvent
deriving DecidableEq

/-- `TestResult.__init__`. -/
def TestResult.init : TestResult :=
  { n_assertions := 0, n_tests := 0, faults := [], listners := [],
    interrupted := false, log := [] }

/-- `TestResult.add_listner`. -/
def TestResult.add_listner (r : TestResult) (l : Listener) : TestResult :=
  { r with listners := r.listners ++ [l] }

/-- The dispatches performed by `TestResult._notify(name, *args)` for the
listener slice starting at registration index `i`: each listener that
implements `on_<name>` is called, in registration order, with the
aggregator itself plus `args`. -/
def notifyEventsFrom (i : Nat) (L : List Listener) (name : String)
    (args : List Arg) : List REvent :=
  match L with
  | [] => []
  | l :: ls =>
    (if ("on_" ++ name) ∈ l.hooks
     then [REvent.hook_call i ("on_" ++ name) args]
     else [])
    ++ notifyEventsFrom (i + 1) ls name args

def notifyEvents (L : List Listener) (name : String) (args : List Arg) :
    List REvent :=
  notifyEventsFrom 0 L name args

/-- `TestResult._notify` (lines 399-403). -/
def TestResult.notify (r : TestResult) (name : String) (args : List Arg) :
    TestResult :=
  { r with log := r.log ++ notifyEvents r.listners name args }

/-- `TestResult.pass_assertion` (lines 360-362). -/
def TestResult.pass_assertion (r : TestResult) (test : Nat) : TestResult :=
  let r := { r with n_assertions := r.n_assertions + 1 }
  r.notify "pass_assertion" [Arg.test test]

/-- `TestResult.start_test` (lines 364-368); the time stamp is not
modelled, the marker event records the invocation. -/
def TestResult.start_test (r : TestResult) (test : Nat) : TestResult :=
  let r := { r with n_tests := r.n_tests + 1,
                    log := r.log ++ [REvent.start_test test] }
  r.notify "start_test" [Arg.test test]

/-- `TestResult.stop_test` (lines 370-373): pure time bookkeeping, no
`_notify` call.  Only the ghost marker is recorded. -/
def TestResult.stop_test (r : TestResult) (test : Nat) : TestResult :=
  { r with log := r.log ++ [REvent.stop_test test] }

/-- `TestResult.add_error` (lines 375-378). -/
def TestResult.add_error (r : TestResult) (_test : Nat) (err : Fault) :
    TestResult :=
  let r := { r with faults := r.faults ++ [err] }
  r.notify "error" [Arg.fault err]

/-- `TestResult.add_failure` (lines 380-383). -/
def TestResult.add_failure (r : TestResult) (_test : Nat) (f : Fault) :
    TestResult :=
  let r := { r with faults := r.faults ++ [f] }
  r.notify "failure" [Arg.fault f]

/-- `TestResult.add_success` (lines 385-387). -/
def TestResult.add_success (r : TestResult) (test : Nat) : TestResult :=
  let r := { r with log := r.log ++ [REvent.add_success test] }
  r.notify "success" [Arg.test test]

/-- `TestResult.interrupt` (lines 389-391).  Note: nothing in `core.py`
ever calls this method. -/
def TestResult.interrupt (r : TestResult) : TestResult :=
  { r with interrupted := true }

/-- `TestResult.need_interrupt` (lines 393-394). -/
def TestResult.need_interrupt (r : TestResult) : Bool :=
  r.interrupted

/-- `TestResult.succeeded` (lines 396-397). -/
def TestResult.succeeded (r : TestResult) : Bool :=
  r.faults.length == 0

/-- `TestResult.n_failures` (lines 352-354). -/
def TestResult.n_failures (r : TestResult) : Nat :=
  (r.faults.filter Fault.isFailure).length

/-- `TestResult.n_errors` (lines 356-358). -/
def TestResult.n_errors (r : TestResult) : Nat :=
  (r.faults.filter Fault.isError).length

/-- A leaf test: its identity plus how each user phase terminates. -/
structure TestCaseModel where
  test : Nat
  setup : UserOutcome
  body : UserOutcome
  teardown : UserOutcome
deriving DecidableEq

/-- `TestCase._add_error` (lines 239-243): builds an `Error` and reports
it through `result.add_error`. -/
def addErrorFrom (r : TestResult) (tc : TestCaseModel) (ph : Phase) :
    TestResult :=
  r.add_error tc.test (Fault.error tc.test ph)

/-- `TestCase._add_failure` (lines 233-237): builds a `Failure` but
reports it through `result.add_error` (line 237), not `add_failure`. -/
def addFailureFrom (r : TestResult) (tc : TestCaseModel) : TestResult :=
  r.add_error tc.test (Fault.failure tc.test)

/-- An exception escaping `TestCase.run`.  The only possibility is the
`TypeError` raised by the calls `result.interrupted()` (the attribute is
a `bool`, not the `interrupt` method); user exceptions are all caught by
the bare `except:` handlers. -/
inductive Escape
  | type_error
deriving DecidableEq

/-- Pending control flow inside `TestCase.run`: normal fall-through, an
early `return`, or a propagating engine exception. -/
inductive Ctrl
  | normal
  | ret
  | exc
deriving DecidableEq

/-- Result of running a leaf test or a suite: the final aggregator state,
the exception (if any) escaping the run, and the user phases that were
entered, in order. -/
structure RunOutput where
  result : TestResult
  escape : Option Escape
  calls : List (Nat × Phase)
deriving DecidableEq

/-- `TestCase.run` (lines 136-175), embedded over the phase outcomes.

Line-by-line: `result.start_test(self)`; `success = False`; setup under
`except KeyboardInterrupt: result.interrupted(); return` (the
`result.interrupted()` call raises `TypeError`, so the flag is never set
and the `return` is never reached) and `except: self._add_error; return`;
the body under its three handlers; then the inner `finally:` always runs
`teardown()` with the same two handlers (a teardown `KeyboardInterrupt`
again turns into a propagating `TypeError`, which in Python 2 replaces
any pending `return`); `if success: result.add_success(self)` only on
normal fall-through; and the outer `finally:` always runs
`result.stop_test(self)`. -/
def TestCaseModel.run (tc : TestCaseModel) (r0 : TestResult) : RunOutput :=
  let r := r0.start_test tc.test
  let calls0 : List (Nat × Phase) := [(tc.test, Phase.setup)]
  let st :=
    match tc.setup with
    | .keyboard_interrupt => (r, false, Ctrl.exc, calls0)
    | .assertion_failure => (addErrorFrom r tc Phase.setup, false, Ctrl.ret, calls0)
    | .other_error => (addErrorFrom r tc Phase.setup, false, Ctrl.ret, calls0)
    | .ok =>
      let calls1 := calls0 ++ [(tc.test, Phase.body)]
      match tc.body with
      | .ok => (r, true, Ctrl.normal, calls1)
      | .assertion_failure => (addFailureFrom r tc, false, Ctrl.normal, calls1)
      | .keyboard_interrupt => (r, false, Ctrl.exc, calls1)
      | .other_error => (addErrorFrom r tc Phase.body, false, Ctrl.normal, calls1)
  let r1 := st.1
  let success1 := st.2.1
  let ctrl1 := st.2.2.1
  let calls1 := st.2.2.2
  let calls2 := calls1 ++ [(tc.test, Phase.teardown)]
  let td :=
    match tc.teardown with
    | .ok => (r1, success1, ctrl1)
    | .keyboard_interrupt => (r1, success1, Ctrl.exc)
    | .assertion_failure => (addErrorFrom r1 tc Phase.teardown, false, ctrl1)
    | .other_error => (addErrorFrom r1 tc Phase.teardown, false, ctrl1)
  let r2 := td.1
  let success2 := td.2.1
  let ctrl2 := td.2.2
  let r3 :=
    match ctrl2 with
    | Ctrl.normal => if success2 then r2.add_success tc.test else r2
    | _ => r2
  let r4 := r3.stop_test tc.test
  { result := r4,
    escape := match ctrl2 with | Ctrl.exc => some Escape.type_error | _ => none,
    calls := calls2 }

/-- `TestSuite.run` (lines 43-47): run children in insertion order; after
each child, break if `result.need_interrupt()`; an exception escaping a
child's `run` escapes the loop. -/
def runSuite (tests : List TestCaseModel) (r : TestResult) : RunOutput :=
  match tests with
  | [] => { result := r, escape := none, calls := [] }
  | t :: rest =>
    let out := t.run r
    match out.escape with
    | some _ => out
    | none =>
      if out.result.need_interrupt then out
      else
        let out2 := runSuite rest out.result
        { result := out2.result, escape := out2.escape,
          calls := out.calls ++ out2.calls }

/-- The dotted name a parts list stands for (`".".join(parts)`). -/
def joinName (parts : List String) : String :=
  String.intercalate "." parts

/-- The `while` loop of `TestLoader.load_modules` (lines 293-302) over an
abstract import system `canImport`: while `parts` is nonempty and no
module has been found, try to import `".".join(parts)`; `ImportError` is
swallowed; then `parts.pop()` removes the LAST component.  The loop runs
at most `parts.length` iterations, which is supplied as structural fuel. -/
def load_module_loop (canImport : String → Bool) :
    Nat → List String → Option String
  | 0, _ => none
  | _ + 1, [] => none
  | fuel + 1, parts =>
    if canImport (joinName parts) then some (joinName parts)
    else load_module_loop canImport fuel parts.dropLast

/-- Module resolution for one target (lines 293-304): the candidate list
is already split on the path separator. -/
def load_module (canImport : String → Bool) (parts : List String) :
    Option String :=
  load_module_loop canImport parts.length parts

/-- Modelled from the spec: the resolution strategy described in §4.4
step 2 ("on failure, drop the leading component and retry; repeat until
resolution succeeds or the candidate is empty"; "this longest-suffix
strategy...").  Missing from the source: no code under `src/` drops the
leading component; `load_modules` pops the trailing one. -/
def load_module_spec (canImport : String → Bool) :
    List String → Option String
  | [] => none
  | p :: ps =>
    if canImport (joinName (p :: ps)) then some (joinName (p :: ps))
    else load_module_spec canImport ps

/-- The registration index a `hook_call` event belongs to (0 for the
marker events, which never coexist with an index claim). -/
def hookIdx : REvent → Nat
  | .hook_call i _ _ => i
  | _ => 0

/-- Whether a log entry is a dispatch of the `on_success` callback. -/
def isSuccessHook : REvent → Bool
  | .hook_call _ cb _ => cb == "on_success"
  | _ => false

/-- Whether a log entry is a listener dispatch at all. -/
def isHookCall : REvent → Bool
  | .hook_call _ _ _ => true
  | _ => false

/-- How many of the three per-leaf outcome events a run produced:
invocations of `add_success` for the test, plus recorded Failures, plus
recorded Errors (the latter two via the source's `n_failures` /
`n_errors` counters, assuming the run started from a fresh result). -/
def leafOutcomeCount (out : RunOutput) (t : Nat) : Nat :=
  out.result.log.count (REvent.add_success t)
    + out.result.n_failures + out.result.n_errors

/-! ## Helper lemmas -/

/-- Membership characterization of the listener dispatch performed by
`_notify`: an event is dispatched iff some registered listener implements
the callback, and the event records that listener's registration index,
the callback name `on_<name>`, and the call's arguments. -/
theorem mem_notifyEventsFrom {e : REvent} {name : String} {args : List Arg} :
    ∀ (L : List Listener) (i : Nat),
      e ∈ notifyEventsFrom i L name args ↔
        ∃ j l, L[j]? = some l ∧ ("on_" ++ name) ∈ l.hooks ∧
          e = REvent.hook_call (i + j) ("on_" ++ name) args
  | [], i => by simp [notifyEventsFrom]
  | l :: ls, i => by
    rw [notifyEventsFrom, List.mem_append]
    constructor
    · intro h
      rcases h with h1 | h2
      · by_cases hc : ("on_" ++ name) ∈ l.hooks
        · rw [if_pos hc, List.mem_singleton] at h1
          exact ⟨0, l, by simp, hc, by simpa using h1⟩
        · rw [if_neg hc] at h1
          exact absurd h1 (List.not_mem_nil e)
      · rcases (mem_notifyEventsFrom ls (i + 1)).1 h2 with ⟨j, l', hg, hh, he⟩
        refine ⟨j + 1, l', by simpa using hg, hh, ?_⟩
        rw [he]
        congr 1
        omega
    · rintro ⟨j, l', hg, hh, he⟩
      cases j with
      | zero =>
        left
        rw [List.getElem?_cons_zero, Option.some.injEq] at hg
        subst hg
        rw [if_pos hh, List.mem_singleton, he]
        simp
      | succ j =>
        right
        rw [List.getElem?_cons_succ] at hg
        refine (mem_notifyEventsFrom ls (i + 1)).2 ⟨j, l', hg, hh, ?_⟩
        rw [he]
        congr 1
        omega

/-- Every event dispatched by `_notify` is a `hook_call` of the callback
`on_<name>` carrying exactly the call's arguments. -/
theorem notifyEventsFrom_shape {e : REvent} {name : String} {args : List Arg}
    {L : List Listener} {i : Nat} (h : e ∈ notifyEventsFrom i L name args) :
    ∃ j, e = REvent.hook_call j ("on_" ++ name) args := by
  rcases (mem_notifyEventsFrom L i).1 h with ⟨j, _, _, _, he⟩
  exact ⟨i + j, he⟩

/-- `_notify` never produces one of the ghost marker events; in
particular it never records an `add_success` invocation. -/
theorem count_add_success_notifyEventsFrom (t : Nat) (name : String)
    (args : List Arg) (L : List Listener) (i : Nat) :
    (notifyEventsFrom i L name args).count (REvent.add_success t) = 0 := by
  rw [List.count_eq_zero]
  intro h
  rcases notifyEventsFrom_shape h with ⟨j, he⟩
  exact REvent.noConfusion he

/-- A predicate false on every `hook_call` of the dispatched callback
filters `_notify`'s events to nothing. -/
theorem filter_notifyEventsFrom (p : REvent → Bool) {name : String}
    {args : List Arg} (L : List Listener) (i : Nat)
    (h : ∀ j, p (REvent.hook_call j ("on_" ++ name) args) = false) :
    (notifyEventsFrom i L name args).filter p = [] := by
  rw [List.filter_eq_nil_iff]
  intro e he
  rcases notifyEventsFrom_shape he with ⟨j, rfl⟩
  simp [h j]

/-- When no registered listener implements the callback, `_notify`
dispatches nothing. -/
theorem notifyEventsFrom_eq_nil {name : String} {args : List Arg}
    {L : List Listener} (i : Nat)
    (h : ∀ l ∈ L, ("on_" ++ name) ∉ l.hooks) :
    notifyEventsFrom i L name args = [] := by
  rw [List.eq_nil_iff_forall_not_mem]
  intro e he
  rcases (mem_notifyEventsFrom L i).1 he with ⟨j, l, hg, hh, _⟩
  exact h l (List.getElem?_mem hg) hh

/-- Dispatch happens in listener-registration order: the hook-call events
produced by one `_notify` carry strictly increasing registration
indices. -/
theorem pairwise_notifyEventsFrom (name : String) (args : List Arg) :
    ∀ (L : List Listener) (i : Nat),
      (notifyEventsFrom i L name args).Pairwise
        (fun a b => hookIdx a < hookIdx b)
  | [], i => by simp [notifyEventsFrom]
  | l :: ls, i => by
    rw [notifyEventsFrom, List.pairwise_append]
    refine ⟨?_, pairwise_notifyEventsFrom name args ls (i + 1), ?_⟩
    · by_cases hc : ("on_" ++ name) ∈ l.hooks <;> simp [hc]
    · intro a ha b hb
      rcases (mem_notifyEventsFrom ls (i + 1)).1 hb with ⟨j, l', _, _, rfl⟩
      by_cases hc : ("on_" ++ name) ∈ l.hooks
      · rw [if_pos hc, List.mem_singleton] at ha
        subst ha
        simp [hookIdx]
        omega
      · rw [if_neg hc] at ha
        exact absurd ha (List.not_mem_nil a)

/-- No operation performed by `TestCase.run` ever changes the
`interrupted` flag: the only method that sets it, `TestResult.interrupt`,
is never called (the code's `result.interrupted()` calls raise instead). -/
theorem run_interrupted (tc : TestCaseModel) (r : TestResult) :
    (tc.run r).result.interrupted = r.interrupted := by
  rcases tc with ⟨t, s, b, td⟩
  cases s <;> cases b <;> cases td <;>
    simp [TestCaseModel.run, TestResult.start_test, TestResult.stop_test,
      TestResult.add_success, TestResult.notify, addErrorFrom, addFailureFrom,
      TestResult.add_error]

/-- Every `TestCase.run` call enters the user `setup` method. -/
theorem run_calls_setup_mem (tc : TestCaseModel) (r : TestResult) :
    (tc.test, Phase.setup) ∈ (tc.run r).calls := by
  rcases tc with ⟨t, s, b, td⟩
  cases s <;> cases b <;> cases td <;> simp [TestCaseModel.run]

/-- Every `TestCase.run` call invokes `result.start_test` for its test. -/
theorem run_log_start_mem (tc : TestCaseModel) (r : TestResult) :
    REvent.start_test tc.test ∈ (tc.run r).result.log := by
  rcases tc with ⟨t, s, b, td⟩
  cases s <;> cases b <;> cases td <;>
    simp [TestCaseModel.run, TestResult.start_test, TestResult.stop_test,
      TestResult.add_success, TestResult.notify, addErrorFrom, addFailureFrom,
      TestResult.add_error, List.mem_append]

/-! ## Claims -/

/-- C1: the claim describes the intended cancellation protocol, but the
code cannot deliver it.  In a suite of two tests whose first test's body
raises `KeyboardInterrupt`, the handler's `result.interrupted()` call
invokes the `bool` attribute and raises `TypeError`: the first test's
teardown and `stop_test` still run (via the `finally` blocks) and the
second test is indeed never started, but the `interrupted` flag stays
`false` and `TestSuite.run` terminates by propagating the `TypeError`
rather than returning. -/
theorem c1_cancellation_code_behavior :
    let t1 : TestCaseModel := ⟨0, .ok, .keyboard_interrupt, .ok⟩
    let t2 : TestCaseModel := ⟨1, .ok, .ok, .ok⟩
    let out := runSuite [t1, t2] TestResult.init
    out.result.interrupted = false ∧
    out.escape = some Escape.type_error ∧
    (0, Phase.teardown) ∈ out.calls ∧
    REvent.stop_test 0 ∈ out.result.log ∧
    (1, Phase.setup) ∉ out.calls ∧
    REvent.start_test 1 ∉ out.result.log := by decide

/-- C4: the claim (and spec §4.4) says the loader drops the LEADING
component on an import failure, so the imported module is a suffix of
the dotted path.  The code's `parts.pop()` (core.py line 302) removes
the TRAILING component: on input `sub.test_foo` where only `test_foo` is
importable the code imports nothing while the spec's strategy finds
`test_foo`; where only `sub` is importable the code imports the package
prefix `sub`, which is not a suffix, while the spec's strategy finds
nothing. -/
theorem c4_load_module_code_behavior :
    load_module (fun s => s == "test_foo") ["sub", "test_foo"] = none ∧
    load_module_spec (fun s => s == "test_foo") ["sub", "test_foo"]
      = some "test_foo" ∧
    load_module (fun s => s == "sub") ["sub", "test_foo"] = some "sub" ∧
    load_module_spec (fun s => s == "sub") ["sub", "test_foo"] = none := by
  decide

/-- C7: teardown is entered exactly once on every exit path of
`TestCase.run` — whatever setup, the body and teardown themselves do. -/
theorem c7_teardown_always_runs (tc : TestCaseModel) (r : TestResult) :
    (tc.run r).calls.count (tc.test, Phase.teardown) = 1 := by
  rcases tc with ⟨t, s, b, td⟩
  cases s <;> cases b <;> cases td <;>
    simp [TestCaseModel.run, List.count_append, List.count_cons]

theorem c7_teardown_always_runs_witness :
    ((⟨3, .other_error, .ok, .ok⟩ : TestCaseModel).run
        TestResult.init).calls.count (3, Phase.teardown) = 1 :=
  c7_teardown_always_runs ⟨3, .other_error, .ok, .ok⟩ TestResult.init

/-- C9: `succeeded()` is true iff no fault has been recorded, and false
iff at least one Failure or Error has been recorded. -/
theorem c9_succeeded_iff (r : TestResult) :
    (r.succeeded = true ↔ r.faults = []) ∧
    (r.succeeded = false ↔ r.faults ≠ []) := by
  constructor <;> simp [TestResult.succeeded, List.length_eq_zero]

theorem c9_succeeded_iff_witness : TestResult.init.succeeded = true :=
  (c9_succeeded_iff TestResult.init).1.mpr rfl

/-- C2 fails as stated: a run whose body and teardown both raise records
TWO Errors (not exactly one), and a run interrupted in the body records
none of the three outcomes (no `add_success` call, no Failure, no
Error). -/
theorem c2_counterexample :
    let outA := (⟨0, .ok, .other_error, .other_error⟩ : TestCaseModel).run
      TestResult.init
    let outB := (⟨1, .ok, .keyboard_interrupt, .ok⟩ : TestCaseModel).run
      TestResult.init
    (outA.result.log.count (REvent.add_success 0) = 0 ∧
      outA.result.n_failures = 0 ∧ outA.result.n_errors = 2) ∧
    (outB.result.log.count (REvent.add_success 1) = 0 ∧
      outB.result.n_failures = 0 ∧ outB.result.n_errors = 0) := by decide

/-- C2 amended: for every leaf test run with a fresh outcome in which no
phase raises the cancellation signal and teardown completes normally,
exactly one of {`add_success` called, one Failure appended, one Error
appended} occurs. -/
theorem c2_exactly_one_outcome (tc : TestCaseModel)
    (h1 : tc.setup ≠ .keyboard_interrupt)
    (h2 : tc.body ≠ .keyboard_interrupt)
    (h3 : tc.teardown = .ok) :
    leafOutcomeCount (tc.run TestResult.init) tc.test = 1 := by
  rcases tc with ⟨t, s, b, td⟩
  simp only at h1 h2 h3
  subst h3
  cases s <;> cases b <;>
    first
    | exact absurd rfl h1
    | exact absurd rfl h2
    | simp [leafOutcomeCount, TestCaseModel.run, TestResult.init,
        TestResult.start_test, TestResult.stop_test, TestResult.add_success,
        TestResult.notify, notifyEvents, notifyEventsFrom, addErrorFrom,
        addFailureFrom, TestResult.add_error, TestResult.n_failures,
        TestResult.n_errors, Fault.isFailure, Fault.isError,
        List.count_append, List.count_cons]

theorem c2_exactly_one_outcome_witness :
    leafOutcomeCount ((⟨5, .ok, .assertion_failure, .ok⟩ :
      TestCaseModel).run TestResult.init) 5 = 1 :=
  c2_exactly_one_outcome ⟨5, .ok, .assertion_failure, .ok⟩
    (by decide) (by decide) rfl

/-- C6: when the body succeeds but teardown raises a non-cancellation
fault, exactly one Error (for the teardown fault) is appended,
`add_success` is never invoked for the test, and no `on_success`
listener dispatch happens — the body's pass leaves no record. -/
theorem c6_teardown_error_after_success (tc : TestCaseModel)
    (r : TestResult) (hs : tc.setup = .ok) (hb : tc.body = .ok)
    (ht : tc.teardown = .assertion_failure ∨ tc.teardown = .other_error) :
    (tc.run r).result.faults = r.faults ++ [Fault.error tc.test Phase.teardown] ∧
    (tc.run r).result.log.count (REvent.add_success tc.test) =
      r.log.count (REvent.add_success tc.test) ∧
    ((tc.run r).result.log.filter isSuccessHook).length =
      (r.log.filter isSuccessHook).length := by
  rcases tc with ⟨t, s, b, td⟩
  simp only at hs hb ht
  subst hs
  subst hb
  have hmark : ∀ (name : String) (args : List Arg) (i : Nat),
      (notifyEventsFrom i r.listners name args).count (REvent.add_success t)
        = 0 :=
    fun name args i => count_add_success_notifyEventsFrom t name args _ i
  have hfs : ∀ (args : List Arg) (i : Nat),
      (notifyEventsFrom i r.listners "start_test" args).filter isSuccessHook
        = [] :=
    fun args i =>
      filter_notifyEventsFrom isSuccessHook _ i (fun j => by
        show (("on_" ++ "start_test") == "on_success") = false
        decide)
  have hfe : ∀ (args : List Arg) (i : Nat),
      (notifyEventsFrom i r.listners "error" args).filter isSuccessHook
        = [] :=
    fun args i =>
      filter_notifyEventsFrom isSuccessHook _ i (fun j => by
        show (("on_" ++ "error") == "on_success") = false
        decide)
  rcases ht with h | h <;> subst h <;>
    simp [TestCaseModel.run, TestResult.start_test, TestResult.stop_test,
      TestResult.add_success, TestResult.notify, addErrorFrom, addFailureFrom,
      TestResult.add_error, notifyEvents, List.count_append, List.count_cons,
      List.filter_append, hmark, hfs, hfe, isSuccessHook]

theorem c6_teardown_error_after_success_witness :
    ((⟨2, .ok, .ok, .other_error⟩ : TestCaseModel).run
        TestResult.init).result.faults =
      TestResult.init.faults ++ [Fault.error 2 Phase.teardown] ∧
    ((⟨2, .ok, .ok, .other_error⟩ : TestCaseModel).run
        TestResult.init).result.log.count (REvent.add_success 2) =
      TestResult.init.log.count (REvent.add_success 2) ∧
    (((⟨2, .ok, .ok, .other_error⟩ : TestCaseModel).run
        TestResult.init).result.log.filter isSuccessHook).length =
      (TestResult.init.log.filter isSuccessHook).length :=
  c6_teardown_error_after_success ⟨2, .ok, .ok, .other_error⟩
    TestResult.init rfl rfl (Or.inr rfl)

/-- C10: if the `interrupted` flag is already set when `TestSuite.run`
starts on a nonempty suite, the first child still runs in full (its
`setup` is entered and its `start_test` is notified) — the
`need_interrupt` check happens only after each child completes, so the
run of the whole suite coincides with the run of the first child alone. -/
theorem c10_interrupt_checked_after_child (t : TestCaseModel)
    (rest : List TestCaseModel) (r : TestResult)
    (h : r.interrupted = true) :
    runSuite (t :: rest) r = runSuite [t] r ∧
    (t.test, Phase.setup) ∈ (runSuite (t :: rest) r).calls ∧
    REvent.start_test t.test ∈ (runSuite (t :: rest) r).result.log := by
  have hni : (t.run r).result.need_interrupt = true := by
    rw [TestResult.need_interrupt, run_interrupted, h]
  have hone : ∀ rest' : List TestCaseModel,
      runSuite (t :: rest') r = t.run r := by
    intro rest'
    rw [runSuite]
    rcases he : (t.run r).escape with _ | e <;> simp [he, hni]
  refine ⟨(hone rest).trans (hone []).symm, ?_, ?_⟩
  · rw [hone rest]
    exact run_calls_setup_mem t r
  · rw [hone rest]
    exact run_log_start_mem t r

theorem c10_interrupt_checked_after_child_witness :
    runSuite [⟨0, .ok, .ok, .ok⟩, ⟨1, .ok, .ok, .ok⟩]
        { TestResult.init with interrupted := true } =
      runSuite [⟨0, .ok, .ok, .ok⟩]
        { TestResult.init with interrupted := true } ∧
    (0, Phase.setup) ∈ (runSuite [⟨0, .ok, .ok, .ok⟩, ⟨1, .ok, .ok, .ok⟩]
        { TestResult.init with interrupted := true }).calls ∧
    REvent.start_test 0 ∈
      (runSuite [⟨0, .ok, .ok, .ok⟩, ⟨1, .ok, .ok, .ok⟩]
        { TestResult.init with interrupted := true }).result.log :=
  c10_interrupt_checked_after_child ⟨0, .ok, .ok, .ok⟩
    [⟨1, .ok, .ok, .ok⟩] { TestResult.init with interrupted := true } rfl

/-- C3 fails as stated: `stop_test` performs no listener dispatch at all
(core.py lines 370-373 contain no `_notify` call).  With a registered
listener that implements `on_stop_test`, invoking `stop_test` on a fresh
result leaves the log with only the invocation marker and no hook
call. -/
theorem c3_counterexample_stop_test_silent :
    let r := { TestResult.init with listners := [⟨["on_stop_test"]⟩] }
    ("on_stop_test" ∈ (⟨["on_stop_test"]⟩ : Listener).hooks) ∧
    (TestResult.stop_test r 0).log = [REvent.stop_test 0] ∧
    (TestResult.stop_test r 0).log.filter isHookCall = [] := by decide

/-- C3 amended: `start_test`, `pass_assertion`, `add_error`,
`add_failure` and `add_success` each dispatch to every registered
listener that implements the matching callback (`on_start_test`,
`on_pass_assertion`, `on_error`, `on_failure`, `on_success`), passing
the aggregator itself plus the event's arguments, synchronously and in
listener-registration order, silently skipping listeners lacking the
hook — but `stop_test` notifies no listener. -/
theorem c3_dispatch (r : TestResult) (t : Nat) (f : Fault) :
    ((r.pass_assertion t).log =
      r.log ++ notifyEvents r.listners "pass_assertion" [Arg.test t]) ∧
    ((r.start_test t).log =
      r.log ++ [REvent.start_test t]
        ++ notifyEvents r.listners "start_test" [Arg.test t]) ∧
    ((r.add_error t f).log =
      r.log ++ notifyEvents r.listners "error" [Arg.fault f]) ∧
    ((r.add_failure t f).log =
      r.log ++ notifyEvents r.listners "failure" [Arg.fault f]) ∧
    ((r.add_success t).log =
      r.log ++ [REvent.add_success t]
        ++ notifyEvents r.listners "success" [Arg.test t]) ∧
    ((r.stop_test t).log = r.log ++ [REvent.stop_test t]) ∧
    (∀ (name : String) (args : List Arg) (e : REvent),
      e ∈ notifyEvents r.listners name args ↔
        ∃ j l, r.listners[j]? = some l ∧ ("on_" ++ name) ∈ l.hooks ∧
          e = REvent.hook_call j ("on_" ++ name) args) ∧
    (∀ (name : String) (args : List Arg),
      (notifyEvents r.listners name args).Pairwise
        (fun a b => hookIdx a < hookIdx b)) := by
  refine ⟨rfl, rfl, rfl, rfl, rfl, rfl, ?_, ?_⟩
  · intro name args e
    simpa using mem_notifyEventsFrom r.listners 0
  · intro name args
    exact pairwise_notifyEventsFrom name args r.listners 0

theorem c3_dispatch_witness :
    (TestResult.add_error
        { TestResult.init with listners := [⟨["on_error"]⟩] } 0
        (Fault.failure 0)).log =
      ({ TestResult.init with listners := [⟨["on_error"]⟩] } :
          TestResult).log ++
        notifyEvents [⟨["on_error"]⟩] "error" [Arg.fault (Fault.failure 0)] :=
  (c3_dispatch { TestResult.init with listners := [⟨["on_error"]⟩] } 0
    (Fault.failure 0)).2.2.1

/-- C5 fails as stated: `add_error` and `add_failure` do NOT produce
identical listener notifications — the former dispatches `on_error`,
the latter `on_failure` — so with a listener implementing both hooks the
resulting states differ. -/
theorem c5_counterexample_notifications_differ :
    let r := { TestResult.init with listners := [⟨["on_error", "on_failure"]⟩] }
    TestResult.add_error r 0 (Fault.failure 0) ≠
      TestResult.add_failure r 0 (Fault.failure 0) := by decide

/-- C5 amended: `add_error(test, fault)` and `add_failure(test, fault)`
have the same underlying storage effect — both append the fault to
`faults` and agree on every other field — but their listener
notifications differ (`on_error` vs `on_failure`); when no registered
listener implements either hook the two calls produce identical
states. -/
theorem c5_same_storage (r : TestResult) (t : Nat) (f : Fault) :
    (r.add_error t f).faults = r.faults ++ [f] ∧
    (r.add_failure t f).faults = r.faults ++ [f] ∧
    (r.add_error t f).n_assertions = (r.add_failure t f).n_assertions ∧
    (r.add_error t f).n_tests = (r.add_failure t f).n_tests ∧
    (r.add_error t f).listners = (r.add_failure t f).listners ∧
    (r.add_error t f).interrupted = (r.add_failure t f).interrupted ∧
    (r.add_error t f).log =
      r.log ++ notifyEvents r.listners "error" [Arg.fault f] ∧
    (r.add_failure t f).log =
      r.log ++ notifyEvents r.listners "failure" [Arg.fault f] ∧
    ((∀ l ∈ r.listners, "on_error" ∉ l.hooks ∧ "on_failure" ∉ l.hooks) →
      r.add_error t f = r.add_failure t f) := by
  refine ⟨rfl, rfl, rfl, rfl, rfl, rfl, rfl, rfl, ?_⟩
  intro h
  have hoe : "on_" ++ "error" = "on_error" := by decide
  have hof : "on_" ++ "failure" = "on_failure" := by decide
  have he : notifyEvents r.listners "error" [Arg.fault f] = [] :=
    notifyEventsFrom_eq_nil 0 (fun l hl => by rw [hoe]; exact (h l hl).1)
  have hf : notifyEvents r.listners "failure" [Arg.fault f] = [] :=
    notifyEventsFrom_eq_nil 0 (fun l hl => by rw [hof]; exact (h l hl).2)
  calc r.add_error t f
      = { r with faults := r.faults ++ [f],
                 log := r.log ++ notifyEvents r.listners "error"
                   [Arg.fault f] } := rfl
    _ = { r with faults := r.faults ++ [f], log := r.log } := by
          rw [he, List.append_nil]
    _ = { r with faults := r.faults ++ [f],
                 log := r.log ++ notifyEvents r.listners "failure"
                   [Arg.fault f] } := by
          rw [hf, List.append_nil]
    _ = r.add_failure t f := rfl

theorem c5_same_storage_witness :
    TestResult.add_error TestResult.init 0 (Fault.failure 0) =
      TestResult.add_failure TestResult.init 0 (Fault.failure 0) :=
  (c5_same_storage TestResult.init 0 (Fault.failure 0)).2.2.2.2.2.2.2.2
    (by simp [TestResult.init])

/-- C8: every fault (an `AssertionFailure` or any other non-cancellation
exception) raised by user setup, body or teardown code inside
`TestCase.run` is caught by that call's handlers and converted into a
`Fault` record appended to the result, and — as long as no phase raises
the cancellation signal — nothing escapes the call.  (When the
cancellation signal is raised, what escapes is the engine's own
`TypeError` from `result.interrupted()`, never the user's exception.) -/
theorem c8_faults_confined (tc : TestCaseModel) (r : TestResult) :
    ((tc.setup = .assertion_failure ∨ tc.setup = .other_error) →
      Fault.error tc.test Phase.setup ∈ (tc.run r).result.faults) ∧
    (tc.setup = .ok → tc.body = .assertion_failure →
      Fault.failure tc.test ∈ (tc.run r).result.faults) ∧
    (tc.setup = .ok → tc.body = .other_error →
      Fault.error tc.test Phase.body ∈ (tc.run r).result.faults) ∧
    ((tc.teardown = .assertion_failure ∨ tc.teardown = .other_error) →
      Fault.error tc.test Phase.teardown ∈ (tc.run r).result.faults) ∧
    (tc.setup ≠ .keyboard_interrupt → tc.body ≠ .keyboard_interrupt →
      tc.teardown ≠ .keyboard_interrupt → (tc.run r).escape = none) := by
  rcases tc with ⟨t, s, b, td⟩
  cases s <;> cases b <;> cases td <;>
    simp [TestCaseModel.run, addErrorFrom, addFailureFrom,
      TestResult.add_error, TestResult.notify, TestResult.start_test,
      TestResult.stop_test, TestResult.add_success, List.mem_append]

theorem c8_faults_confined_witness :
    Fault.error 0 Phase.setup ∈
      ((⟨0, .other_error, .ok, .assertion_failure⟩ : TestCaseModel).run
        TestResult.init).result.faults ∧
    Fault.error 0 Phase.teardown ∈
      ((⟨0, .other_error, .ok, .assertion_failure⟩ : TestCaseModel).run
        TestResult.init).result.faults ∧
    ((⟨0, .other_error, .ok, .assertion_failure⟩ : TestCaseModel).run
        TestResult.init).escape = none :=
  ⟨(c8_faults_confined ⟨0, .other_error, .ok, .assertion_failure⟩
      TestResult.init).1 (Or.inr rfl),
   (c8_faults_confined ⟨0, .other_error, .ok, .assertion_failure⟩
      TestResult.init).2.2.2.1 (Or.inl rfl),
   (c8_faults_confined ⟨0, .other_error, .ok, .assertion_failure⟩
      TestResult.init).2.2.2.2 (by decide) (by decide) (by decide)⟩

end Pikzie
